import Mathlib

/-!
Verification of the pipeline lifecycle and resilience engine of the
RTSP re-encoder (ioh-robodog-rtsp).

The development shallowly embeds the C++ sources:
  - `Stats`   from src/src/stats.cpp (thread-safe health counters);
  - the configuration records and `validate_config` from src/src/config.hpp
    and src/src/config.cpp;
  - `Encoder` from src/src/encoder.cpp (NVENC element property setup);
  - `Pipeline` operations from src/src/pipeline.cpp and src/unnamed/part_000
    (watchdog_check, restart_encoder, pull_latest_sample, stop,
    on_bus_message).

Machine integers are modelled as Nat / Int with explicit reduction
modulo 2 ^ 32 (uint32 counters, guint properties) and 2 ^ 64 (uint64
frame counter) where the C++ performs fixed-width arithmetic.  The
steady clock is modelled as an explicit nanosecond timestamp parameter
threaded through the operations; C++ double seconds are modelled as
exact rationals.  Externally observable effects of the restart path
(sleeping, tearing the graph down, rebuilding, requesting PLAYING,
resetting the counters) are reified as an event trace so that ordering
properties can be stated; the trace vocabulary also contains the events
`Ev.frame` and `BusAction.request_restart` that the code can never emit
on these paths, so that their absence is a statable fact rather than a
modelling artifact.
-/

-- ===========================================================================
--  Configuration records (src/src/config.hpp)
-- ===========================================================================

structure RtspConfig where
  url : String
  transport : String
  latency_ms : Int
  reconnect_delay_s : Int
  max_reconnect_attempts : Int
  deriving DecidableEq

structure EncoderConfig where
  width : Int
  height : Int
  framerate : Int
  max_bitrate_kbps : Nat
  target_bitrate_kbps : Nat
  idr_interval : Int
  preset : String
  profile : String
  control_rate : String
  deriving DecidableEq

structure OutputConfig where
  port : Int
  path : String
  deriving DecidableEq

structure StatsConfig where
  enabled : Bool
  interval_s : Int
  deriving DecidableEq

structure ResilienceConfig where
  watchdog_timeout_s : Int
  max_pipeline_restarts : Int
  deriving DecidableEq

structure AppConfig where
  rtsp : RtspConfig
  encoder : EncoderConfig
  output : OutputConfig
  stats : StatsConfig
  resilience : ResilienceConfig
  deriving DecidableEq

/-- The default configuration values given by the field initializers in
src/src/config.hpp (used by load_config when fields are absent). -/
def default_config : AppConfig :=
  { rtsp := { url := "rtsp://192.168.1.120:554/test", transport := "tcp",
              latency_ms := 200, reconnect_delay_s := 3,
              max_reconnect_attempts := 0 }
  , encoder := { width := 1280, height := 720, framerate := 30,
                 max_bitrate_kbps := 2000, target_bitrate_kbps := 1800,
                 idr_interval := 30, preset := "UltraLowLatency",
                 profile := "high", control_rate := "cbr" }
  , output := { port := 8554, path := "/stream" }
  , stats := { enabled := true, interval_s := 5 }
  , resilience := { watchdog_timeout_s := 10, max_pipeline_restarts := 0 } }

/-- validate_config from src/src/config.cpp: true iff none of the checks
throws.  Note that rtsp.reconnect_delay_s, resilience.watchdog_timeout_s and
resilience.max_pipeline_restarts are NOT validated. -/
def validate_config (cfg : AppConfig) : Bool :=
  (!decide (cfg.rtsp.url = "")) &&
  (decide (cfg.rtsp.transport = "tcp") || decide (cfg.rtsp.transport = "udp")) &&
  (!decide (cfg.encoder.width < 0) && !decide (cfg.encoder.height < 0)) &&
  (!decide (cfg.encoder.framerate < 1) && !decide (cfg.encoder.framerate > 120)) &&
  (!decide (cfg.encoder.max_bitrate_kbps < 100) &&
   !decide (cfg.encoder.max_bitrate_kbps > 50000)) &&
  (!decide (cfg.encoder.target_bitrate_kbps > cfg.encoder.max_bitrate_kbps)) &&
  (!decide (cfg.encoder.idr_interval < 1)) &&
  (!decide (cfg.output.port < 1) && !decide (cfg.output.port > 65535))

-- ===========================================================================
--  Stats (src/src/stats.cpp)
-- ===========================================================================

/-- The counter fields of class Stats.  frame_count is uint64; the
reconnect and restart counters are uint32; the timestamps hold
steady-clock nanosecond counts (int64, modelled as Int).  The value 0 of
last_frame_time_ns is the sentinel for "no frame recorded yet". -/
structure Stats where
  frame_count : Nat
  reconnect_count : Nat
  restart_count : Nat
  start_time_ns : Int
  last_frame_time_ns : Int
  last_fps_frame_count : Nat
  last_fps_time_ns : Int
  deriving DecidableEq

/-- Stats::reset() (stats.cpp lines 6-12): zeroes the frame counter and all
timing state and re-arms start_time_ to the current instant; the reconnect
and restart counters are not touched. -/
def Stats.reset (s : Stats) (now_ns : Int) : Stats :=
  { s with frame_count := 0, start_time_ns := now_ns,
           last_frame_time_ns := 0, last_fps_frame_count := 0,
           last_fps_time_ns := 0 }

/-- Stats::on_frame_encoded (stats.cpp lines 14-18). -/
def Stats.on_frame_encoded (s : Stats) (now_ns : Int) : Stats :=
  { s with frame_count := (s.frame_count + 1) % 2 ^ 64,
           last_frame_time_ns := now_ns }

/-- Stats::on_reconnect (stats.cpp lines 20-22). -/
def Stats.on_reconnect (s : Stats) : Stats :=
  { s with reconnect_count := (s.reconnect_count + 1) % 2 ^ 32 }

/-- Stats::on_pipeline_restart (stats.cpp lines 24-26). -/
def Stats.on_pipeline_restart (s : Stats) : Stats :=
  { s with restart_count := (s.restart_count + 1) % 2 ^ 32 }

/-- Stats::seconds_since_last_frame (stats.cpp lines 28-38): when no frame
has been recorded since the last reset (sentinel 0) the elapsed time is
measured from start_time_, otherwise from the last frame timestamp.  The
C++ double result is modelled as an exact rational number of seconds. -/
def Stats.seconds_since_last_frame (s : Stats) (now_ns : Int) : ℚ :=
  if s.last_frame_time_ns = 0 then
    ((now_ns - s.start_time_ns : Int) : ℚ) / 1000000000
  else
    ((now_ns - s.last_frame_time_ns : Int) : ℚ) / 1000000000

/-- The value of a uint32 counter after the C++ cast static_cast int
(modular twos-complement wrap, as gcc defines it). -/
def uint32_as_int (u : Nat) : Int :=
  if u % 2 ^ 32 < 2 ^ 31 then ((u % 2 ^ 32 : Nat) : Int)
  else ((u % 2 ^ 32 : Nat) : Int) - 2 ^ 32

-- ===========================================================================
--  Encoder (src/src/encoder.cpp)
-- ===========================================================================

/-- The properties that Encoder::configure sets on the nvv4l2h264enc
element with g_object_set.  bitrate, peak-bitrate and vbv-size are guint
(32 bit) values. -/
structure EncProps where
  bitrate : Nat
  peak_bitrate : Nat
  control_rate : Int
  preset_level : Int
  profile : Int
  idrinterval : Int
  insert_sps_pps : Bool
  maxperf_enable : Bool
  vbv_size : Nat
  deriving DecidableEq

/-- Encoder::preset_to_enum (encoder.cpp lines 33-41). -/
def preset_to_enum (p : String) : Int :=
  if p = "UltraLowLatency" ∨ p = "ultrafast" then 2
  else if p = "LowLatency" ∨ p = "fast" then 3
  else if p = "HP" ∨ p = "medium" then 4
  else if p = "HQ" ∨ p = "slow" then 5
  else 2

/-- Encoder::profile_to_enum (encoder.cpp lines 43-50). -/
def profile_to_enum (p : String) : Int :=
  if p = "baseline" then 0
  else if p = "main" then 2
  else if p = "high" then 4
  else 4

/-- Encoder::control_rate_to_enum (encoder.cpp lines 52-58). -/
def control_rate_to_enum (r : String) : Int :=
  if r = "cbr" then 1
  else if r = "vbr" then 2
  else 1

/-- The class Encoder state: the held element pointer (none = null) with
its property values, plus the stored kbps fields. -/
structure Encoder where
  encoder : Option EncProps
  target_bitrate_kbps : Nat
  max_bitrate_kbps : Nat
  deriving DecidableEq

/-- Encoder::configure (encoder.cpp lines 60-101).  The element pointer and
the kbps fields are stored first; if the element is null the property
writes are skipped.  Otherwise every listed property is set:
bitrate = target * 1000 and peak-bitrate = max * 1000 bits per second in
guint (uint32) arithmetic, and vbv-size = (target * 1000) / 30 computed in
uint32. -/
def Encoder.configure (e : Encoder) (elem : Option EncProps)
    (target max_kbps : Nat) (idr : Int)
    (preset profile rate : String) : Encoder :=
  let stored : Encoder :=
    { e with encoder := elem, target_bitrate_kbps := target,
             max_bitrate_kbps := max_kbps }
  let props : EncProps :=
    { bitrate := target * 1000 % 2 ^ 32
    , peak_bitrate := max_kbps * 1000 % 2 ^ 32
    , control_rate := control_rate_to_enum rate
    , preset_level := preset_to_enum preset
    , profile := profile_to_enum profile
    , idrinterval := idr
    , insert_sps_pps := true
    , maxperf_enable := true
    , vbv_size := target * 1000 % 2 ^ 32 / 30 }
  match elem with
  | none => stored
  | some _ => { stored with encoder := some props }

/-- Encoder::set_bitrate (encoder.cpp lines 103-120): a null element makes
the call return before anything is stored; otherwise only the two bitrate
properties of the element are rewritten, besides the stored kbps fields. -/
def Encoder.set_bitrate (e : Encoder) (t m : Nat) : Encoder :=
  match e.encoder with
  | none => e
  | some p =>
    { e with target_bitrate_kbps := t, max_bitrate_kbps := m,
             encoder := some { p with bitrate := t * 1000 % 2 ^ 32,
                                      peak_bitrate := m * 1000 % 2 ^ 32 } }

-- ===========================================================================
--  Pipeline state (src/src/pipeline.hpp private fields)
-- ===========================================================================

/-- The fields of class Pipeline that the lifecycle operations read and
write.  Pointer members are modelled by their nullness (true = non-null).
`live` is the instrumentation suggested by the specification: it counts
how many constructed graph instances currently exist (incremented by a
successful build, zeroed when stop_encoder releases the graph), so that
"no two graphs simultaneously live" is statable. -/
structure PipeState where
  config : AppConfig
  stats : Stats
  encoder : Encoder
  enc_pipeline : Bool
  appsink : Bool
  rtsp_server : Bool
  running : Bool
  reconnect_delay_s : Int
  live : Nat
  deriving DecidableEq

/-- Pipeline::stop_encoder (pipeline.cpp lines 368-375): when a graph
exists it is set to NULL state, the bus watch removed, appsink_ nulled and
the graph released; a no-op on an already-torn-down handle. -/
def stop_encoder (s : PipeState) : PipeState :=
  if s.enc_pipeline then
    { s with enc_pipeline := false, appsink := false, live := 0 }
  else s

/-- Pipeline::stop_rtsp_server (pipeline.cpp lines 377-380). -/
def stop_rtsp_server (s : PipeState) : PipeState :=
  { s with rtsp_server := false }

/-- Pipeline::stop (pipeline.cpp lines 278-285): returns immediately when
not running, else clears the running flag and tears everything down. -/
def PipeState.stop (s : PipeState) : PipeState :=
  if s.running = false then s
  else stop_rtsp_server (stop_encoder { s with running := false })

/-- The state mutation of a successful build_encoder_pipeline
(pipeline.cpp lines 112-239): a new graph with an appsink exists, and
Encoder::configure was invoked on the fresh nvv4l2h264enc element with the
current configuration values (lines 157-163). -/
def build_effect (s : PipeState) : PipeState :=
  { s with enc_pipeline := true, appsink := true, live := s.live + 1,
           encoder := s.encoder.configure
             (some { bitrate := 0, peak_bitrate := 0, control_rate := 0,
                     preset_level := 0, profile := 0, idrinterval := 0,
                     insert_sps_pps := false, maxperf_enable := false,
                     vbv_size := 0 })
             s.config.encoder.target_bitrate_kbps
             s.config.encoder.max_bitrate_kbps
             s.config.encoder.idr_interval
             s.config.encoder.preset
             s.config.encoder.profile
             s.config.encoder.control_rate }

/-- Pipeline::watchdog_check (pipeline.cpp lines 314-322): false means a
restart is requested by the supervising loop.  When not running the check
also returns false; while running it reports the pipeline unhealthy iff
the stall condition holds AND at least one frame has been counted. -/
def watchdog_check (now_ns : Int) (s : PipeState) : Bool :=
  if s.running = false then false
  else if s.stats.seconds_since_last_frame now_ns >
            (s.config.resilience.watchdog_timeout_s : ℚ)
          ∧ 0 < s.stats.frame_count then false
  else true

/-- Pipeline::pull_latest_sample (pipeline.cpp lines 330-333): null unless
an appsink exists and the pipeline is running; otherwise whatever
gst_app_sink_try_pull_sample yields within its 100 ms timeout (modelled by
the parameter avail). -/
def pull_latest_sample (s : PipeState) (avail : Option Nat) : Option Nat :=
  if s.appsink = false ∨ s.running = false then none else avail

/-- Pipeline::set_bitrate (pipeline.cpp lines 324-328): rewrites the two
bitrate fields of the stored configuration and forwards to
Encoder::set_bitrate; nothing else is touched and no build happens. -/
def PipeState.set_bitrate (s : PipeState) (t m : Nat) : PipeState :=
  { s with
      config := { s.config with encoder :=
        { s.config.encoder with target_bitrate_kbps := t,
                                max_bitrate_kbps := m } },
      encoder := s.encoder.set_bitrate t m }

-- ===========================================================================
--  Bus callback (src/src/pipeline.cpp lines 410-437)
-- ===========================================================================

/-- GStreamer bus message kinds relevant to Pipeline::on_bus_message. -/
inductive GstMsg where
  | error
  | eos
  | warning
  | state_changed
  | other
  deriving DecidableEq

/-- The externally visible actions a bus-message handler could take.
`request_restart` is in the vocabulary so that its absence from the
handler output is a statable fact; the source handler only ever records
the event on the reconnect counter. -/
inductive BusAction where
  | record_reconnect
  | request_restart
  deriving DecidableEq

/-- Pipeline::on_bus_message (pipeline.cpp lines 410-437): an ERROR or EOS
message increments the reconnect counter via Stats::on_reconnect and
nothing else; state-changed and other messages only log. -/
def on_bus_message : GstMsg → Stats → Stats × List BusAction
  | GstMsg.error, st => (st.on_reconnect, [BusAction.record_reconnect])
  | GstMsg.eos, st => (st.on_reconnect, [BusAction.record_reconnect])
  | _, st => (st, [])

-- ===========================================================================
--  Restart path (src/src/pipeline.cpp lines 287-312, restart_encoder)
-- ===========================================================================

/-- The observable steps of Pipeline::restart_encoder, in execution
order.  `frame` is the event Stats::on_frame_encoded would contribute; it
is part of the vocabulary so that its absence from the restart trace is a
statable fact. -/
inductive Ev where
  | inc_restart
  | wait (d : Int)
  | backoff_double
  | teardown
  | build (ok : Bool)
  | set_playing (ok : Bool)
  | reset_stats
  | reset_backoff
  | frame
  deriving DecidableEq

/-- The state transition of each restart step, read off the corresponding
source lines (see restart_trace). -/
def Ev.step (now_ns : Int) (s : PipeState) : Ev → PipeState
  | Ev.inc_restart => { s with stats := s.stats.on_pipeline_restart }
  | Ev.wait _ => s
  | Ev.backoff_double =>
      { s with reconnect_delay_s := min (s.reconnect_delay_s * 2) 30 }
  | Ev.teardown => stop_encoder s
  | Ev.build ok => if ok then build_effect s else { s with enc_pipeline := false }
  | Ev.set_playing _ => s
  | Ev.reset_stats => { s with stats := s.stats.reset now_ns }
  | Ev.reset_backoff =>
      { s with reconnect_delay_s := s.config.rtsp.reconnect_delay_s }
  | Ev.frame => { s with stats := s.stats.on_frame_encoded now_ns }

/-- The exhaustion guard of Pipeline::restart_encoder (pipeline.cpp lines
288-293): max > 0 && (int)restart_count >= max. -/
def restart_refused (cfg : AppConfig) (st : Stats) : Bool :=
  decide (0 < cfg.resilience.max_pipeline_restarts) &&
  decide (cfg.resilience.max_pipeline_restarts ≤ uint32_as_int st.restart_count)

/-- The ordered event trace of one call to Pipeline::restart_encoder
(pipeline.cpp lines 287-312), with the build and PLAYING outcomes as
parameters: refusal is silent; otherwise the counter is incremented (line
295), the current backoff delay is slept (line 299) and then doubled with
ceiling 30 (line 300), the old graph is torn down (line 302), the graph is
rebuilt (line 303), transitioned to PLAYING (line 305), and only on
success are the stats and the backoff delay reset (lines 308-309); a
PLAYING failure tears the fresh graph down again (line 306). -/
def restart_trace (s : PipeState) (build_ok play_ok : Bool) : List Ev :=
  if restart_refused s.config s.stats then []
  else
    [Ev.inc_restart, Ev.wait s.reconnect_delay_s, Ev.backoff_double,
     Ev.teardown] ++
    (if build_ok then
       Ev.build true ::
         (if play_ok then
            [Ev.set_playing true, Ev.reset_stats, Ev.reset_backoff]
          else [Ev.set_playing false, Ev.teardown])
     else [Ev.build false])

/-- Pipeline::restart_encoder as a function: the Bool is the returned
success flag, the PipeState the final state (the trace folded over the
step semantics). -/
def restart_encoder (now_ns : Int) (s : PipeState)
    (build_ok play_ok : Bool) : Bool × PipeState :=
  ((!restart_refused s.config s.stats) && build_ok && play_ok,
   (restart_trace s build_ok play_ok).foldl (Ev.step now_ns) s)

/-- The states visited while executing a trace, starting state included. -/
def states_along (now_ns : Int) : PipeState → List Ev → List PipeState
  | s, [] => [s]
  | s, e :: es => s :: states_along now_ns (Ev.step now_ns s e) es

-- ===========================================================================
--  Backoff delay sequence (pipeline.cpp lines 299-300, 309)
-- ===========================================================================

/-- The stored reconnect delay after n consecutive restart attempts with
no intervening successful restart, starting from the configured base:
each attempt sleeps the current value and then stores
min(current * 2, 30). -/
def backoff_seq (base : Int) : Nat → Int
  | 0 => base
  | n + 1 => min (backoff_seq base n * 2) 30

-- ===========================================================================
--  Concrete states used by witnesses and counterexamples
-- ===========================================================================

/-- A Stats value of a healthy running pipeline: 500 frames counted, the
most recent at nanosecond 1. -/
def stats_run : Stats :=
  { frame_count := 500, reconnect_count := 0, restart_count := 0,
    start_time_ns := 1, last_frame_time_ns := 1,
    last_fps_frame_count := 0, last_fps_time_ns := 0 }

/-- Concrete encoder element properties as Encoder::configure leaves them
for the default configuration. -/
def props0 : EncProps :=
  { bitrate := 1800000, peak_bitrate := 2000000, control_rate := 1,
    preset_level := 2, profile := 4, idrinterval := 30,
    insert_sps_pps := true, maxperf_enable := true, vbv_size := 60000 }

def enc0 : Encoder :=
  { encoder := some props0, target_bitrate_kbps := 1800,
    max_bitrate_kbps := 2000 }

/-- A running RTSP-server-mode pipeline under the default configuration. -/
def s0 : PipeState :=
  { config := default_config, stats := stats_run, encoder := enc0,
    enc_pipeline := true, appsink := true, rtsp_server := true,
    running := true, reconnect_delay_s := 3, live := 1 }

/-- The default configuration with reconnect_delay_s set to 40: it passes
validate_config because the reconnect delay is not validated. -/
def cfg40 : AppConfig :=
  { default_config with rtsp :=
      { default_config.rtsp with reconnect_delay_s := 40 } }

/-- The default configuration with max_pipeline_restarts = 2. -/
def cfgM2 : AppConfig :=
  { default_config with resilience :=
      { watchdog_timeout_s := 10, max_pipeline_restarts := 2 } }

/-- A running pipeline whose restart counter has already reached the
configured maximum of 2. -/
def sEx : PipeState :=
  { s0 with config := cfgM2, stats := { stats_run with restart_count := 2 } }

/-- A fresh running pipeline under max_pipeline_restarts = 2, and the
states after one and after two successful restart requests. -/
def sm2 : PipeState := { s0 with config := cfgM2 }

def sm2a : PipeState := (restart_encoder 0 sm2 true true).2

def sm2b : PipeState := (restart_encoder 0 sm2a true true).2

-- ===========================================================================
--  Helper lemmas
-- ===========================================================================

theorem stop_encoder_stats (s : PipeState) : (stop_encoder s).stats = s.stats := by
  unfold stop_encoder; split <;> rfl

theorem stop_encoder_delay (s : PipeState) :
    (stop_encoder s).reconnect_delay_s = s.reconnect_delay_s := by
  unfold stop_encoder; split <;> rfl

theorem stop_encoder_config (s : PipeState) : (stop_encoder s).config = s.config := by
  unfold stop_encoder; split <;> rfl

theorem build_effect_stats (s : PipeState) : (build_effect s).stats = s.stats := rfl

theorem build_effect_delay (s : PipeState) :
    (build_effect s).reconnect_delay_s = s.reconnect_delay_s := rfl

theorem build_effect_config (s : PipeState) : (build_effect s).config = s.config := rfl

theorem stop_running (s : PipeState) : (PipeState.stop s).running = false := by
  unfold PipeState.stop stop_rtsp_server stop_encoder
  split
  · assumption
  · split <;> rfl

-- ===========================================================================
--  Claim theorems
-- ===========================================================================

/-- C7: at every instant after a reset and before any frame is recorded,
seconds_since_last_frame equals the elapsed monotonic-clock time since
that reset (whatever the previous start time was, hence not since process
start), and it is monotone non-decreasing in the current time; once
frames have been recorded it equals the elapsed time since the most
recent frame. -/
theorem seconds_since_last_frame_spec (s : Stats) (t0 t1 t2 now1 now2 : Int)
    (h12 : now1 ≤ now2) (ht2 : t2 ≠ 0) :
    (s.reset t0).seconds_since_last_frame now1
        = ((now1 - t0 : Int) : ℚ) / 1000000000
    ∧ (s.reset t0).seconds_since_last_frame now1
        ≤ (s.reset t0).seconds_since_last_frame now2
    ∧ (((s.reset t0).on_frame_encoded t1).on_frame_encoded t2).seconds_since_last_frame now1
        = ((now1 - t2 : Int) : ℚ) / 1000000000 := by
  refine ⟨?_, ?_, ?_⟩
  · simp [Stats.reset, Stats.seconds_since_last_frame]
  · simp only [Stats.reset, Stats.seconds_since_last_frame, if_pos rfl]
    have hc : ((now1 - t0 : Int) : ℚ) ≤ ((now2 - t0 : Int) : ℚ) := by
      exact_mod_cast sub_le_sub_right h12 t0
    have hpos : (0 : ℚ) < 1000000000 := by norm_num
    exact (div_le_div_iff_of_pos_right hpos).mpr hc
  · simp [Stats.reset, Stats.on_frame_encoded, Stats.seconds_since_last_frame, ht2]

/-- C7 witness at concrete instants: reset at 0, frames at 500 and at
1500000000 ns, read at 2000000000 and 3000000000 ns. -/
theorem seconds_since_last_frame_spec_witness :
    (stats_run.reset 0).seconds_since_last_frame 2000000000
        = ((2000000000 - 0 : Int) : ℚ) / 1000000000
    ∧ (stats_run.reset 0).seconds_since_last_frame 2000000000
        ≤ (stats_run.reset 0).seconds_since_last_frame 3000000000
    ∧ (((stats_run.reset 0).on_frame_encoded 500).on_frame_encoded 1500000000).seconds_since_last_frame 2000000000
        = ((2000000000 - 1500000000 : Int) : ℚ) / 1000000000 :=
  seconds_since_last_frame_spec stats_run 0 500 1500000000 2000000000 3000000000
    (by norm_num) (by norm_num)

/-- C9: Stats::reset zeroes the frame counter and all last-frame / FPS
timing state (re-arming the epoch to the reset instant) while leaving the
reconnect counter and the restart counter unchanged; moreover a full
restart_encoder call never lowers or zeroes those two counters: the
reconnect counter is untouched and the restart counter only advances by
one on an attempt, so both persist for the process lifetime. -/
theorem reset_preserves_counters (s : Stats) (t now : Int)
    (ps : PipeState) (bo po : Bool) :
    (s.reset t).reconnect_count = s.reconnect_count
    ∧ (s.reset t).restart_count = s.restart_count
    ∧ (s.reset t).frame_count = 0
    ∧ (s.reset t).last_frame_time_ns = 0
    ∧ (s.reset t).last_fps_frame_count = 0
    ∧ (s.reset t).last_fps_time_ns = 0
    ∧ (s.reset t).start_time_ns = t
    ∧ ((restart_encoder now ps bo po).2).stats.reconnect_count
        = ps.stats.reconnect_count
    ∧ ((restart_encoder now ps bo po).2).stats.restart_count
        = (if restart_refused ps.config ps.stats then ps.stats.restart_count
           else (ps.stats.restart_count + 1) % 2 ^ 32) := by
  refine ⟨rfl, rfl, rfl, rfl, rfl, rfl, rfl, ?_, ?_⟩ <;>
  · rcases hr : restart_refused ps.config ps.stats <;>
      cases bo <;> cases po <;>
        simp [restart_encoder, restart_trace, hr, Ev.step,
              stop_encoder_stats, build_effect_stats,
              Stats.on_pipeline_restart, Stats.reset]

/-- C1: while the pipeline is in the running state, watchdog_check reports
the pipeline unhealthy (returns false, which makes the supervising loop
request a restart) iff seconds_since_last_frame strictly exceeds the
configured watchdog_timeout_s AND at least one frame has been counted
since the last stats reset; with a zero frame count it never requests a
restart, however much time has elapsed. -/
theorem watchdog_iff (now : Int) (s : PipeState) (h : s.running = true) :
    (watchdog_check now s = false ↔
      (s.stats.seconds_since_last_frame now >
         (s.config.resilience.watchdog_timeout_s : ℚ)
       ∧ 0 < s.stats.frame_count))
    ∧ (s.stats.frame_count = 0 → watchdog_check now s = true) := by
  refine ⟨?_, ?_⟩
  · by_cases hc : (s.stats.seconds_since_last_frame now >
        (s.config.resilience.watchdog_timeout_s : ℚ) ∧ 0 < s.stats.frame_count)
    · simp [watchdog_check, h, hc]
    · simp [watchdog_check, h, hc]
  · intro hz
    simp [watchdog_check, h, hz]

/-- C1 witness: the example of the specification at concrete values:
timeout 10 s, the last of 500 frames 11 s ago — the check requests a
restart. -/
theorem watchdog_iff_witness : watchdog_check 11000000001 s0 = false :=
  ((watchdog_iff 11000000001 s0 rfl).1).mpr
    ⟨by norm_num [s0, stats_run, default_config, Stats.seconds_since_last_frame],
     by norm_num [s0, stats_run]⟩

/-- C10: pull_latest_sample returns null (none) whenever no appsink has
been built or the pipeline is not running — in particular after stop —
rather than raising an error or blocking; a sample can only come back
when an appsink exists and the pipeline is running, and then it is
whatever the sink handed over. -/
theorem pull_latest_sample_spec (s : PipeState) (avail : Option Nat) (x : Nat) :
    ((s.appsink = false ∨ s.running = false) →
        pull_latest_sample s avail = none)
    ∧ pull_latest_sample s.stop avail = none
    ∧ (pull_latest_sample s avail = some x →
        s.appsink = true ∧ s.running = true ∧ avail = some x) := by
  refine ⟨?_, ?_, ?_⟩
  · intro h
    simp [pull_latest_sample, h]
  · simp [pull_latest_sample, stop_running s]
  · intro hx
    cases ha : s.appsink with
    | false => rw [pull_latest_sample, if_pos (Or.inl ha)] at hx; exact absurd hx (by simp)
    | true =>
      cases hr : s.running with
      | false => rw [pull_latest_sample, if_pos (Or.inr hr)] at hx; exact absurd hx (by simp)
      | true =>
        refine ⟨rfl, rfl, ?_⟩
        simpa [pull_latest_sample, ha, hr] using hx

/-- C10 witness: after stopping the running pipeline s0 the pull returns
none even though the sink has a sample to offer. -/
theorem pull_latest_sample_spec_witness :
    pull_latest_sample (PipeState.stop s0) (some 7) = none :=
  (pull_latest_sample_spec s0 (some 7) 7).2.1

/-- C2 counterexample: the claim says an asynchronous error or
end-of-stream notification arriving while running makes the controller
restart the graph.  On the code, Pipeline::on_bus_message merely calls
Stats::on_reconnect for ERROR and for EOS: at the concrete running-state
counters stats_run the handler output contains no restart request at all
(the action vocabulary has request_restart exactly so that this absence is
statable) and the whole effect is reconnect_count + 1. -/
theorem bus_error_no_restart_cex :
    (on_bus_message GstMsg.error stats_run).2 = [BusAction.record_reconnect]
    ∧ BusAction.request_restart ∉ (on_bus_message GstMsg.error stats_run).2
    ∧ (on_bus_message GstMsg.eos stats_run).2 = [BusAction.record_reconnect]
    ∧ BusAction.request_restart ∉ (on_bus_message GstMsg.eos stats_run).2
    ∧ (on_bus_message GstMsg.error stats_run).1
        = { stats_run with reconnect_count := stats_run.reconnect_count + 1 } := by
  decide

/-- C2 amended: an ERROR or EOS notification from the graph is only
recorded — the handler increments the reconnect counter and changes
nothing else, and for no message kind does the handler itself request a
restart; recovery from such events is left to the watchdog path. -/
theorem bus_error_recorded_only (st : Stats) (m : GstMsg) :
    (on_bus_message GstMsg.error st).1 = st.on_reconnect
    ∧ (on_bus_message GstMsg.eos st).1 = st.on_reconnect
    ∧ BusAction.request_restart ∉ (on_bus_message m st).2
    ∧ (on_bus_message m st).1.frame_count = st.frame_count
    ∧ (on_bus_message m st).1.restart_count = st.restart_count
    ∧ (on_bus_message m st).1.last_frame_time_ns = st.last_frame_time_ns
    ∧ (on_bus_message m st).1.start_time_ns = st.start_time_ns := by
  cases m <;> simp [on_bus_message, Stats.on_reconnect]

theorem backoff_bounds (base : Int) (h0 : 0 ≤ base) (h30 : base ≤ 30) :
    ∀ n, 0 ≤ backoff_seq base n ∧ backoff_seq base n ≤ 30 := by
  intro n
  induction n with
  | zero => exact ⟨h0, h30⟩
  | succ k ih =>
    refine ⟨le_min (by linarith [ih.1]) (by norm_num), ?_⟩
    exact min_le_right _ _

/-- C3 counterexample: the claim quantifies over every configured base
reconnect delay, but validate_config never examines reconnect_delay_s, so
base 40 is a configurable value; with it the first delay is 40 (above the
30-second ceiling) and the second is 30, so the delay sequence is not
non-decreasing and not capped at 30. -/
theorem backoff_cex :
    validate_config cfg40 = true
    ∧ cfg40.rtsp.reconnect_delay_s = 40
    ∧ backoff_seq 40 0 = 40
    ∧ backoff_seq 40 1 = 30
    ∧ ¬ backoff_seq 40 0 ≤ backoff_seq 40 1
    ∧ ¬ backoff_seq 40 0 ≤ 30 := by
  decide

/-- C3 amended: for every configured base reconnect delay between 0 and
30, the delay sequence used by consecutive restart attempts with no
intervening successful restart is non-decreasing, obeys
next = min(2 * current, 30) (doubling, capped at the 30-second ceiling),
and stays at most 30; from base 3 it runs 3, 6, 12, 24, 30, 30, 30.
Bases above the ceiling first wait the base itself and then drop to 30.
Each non-refused restart_encoder attempt sleeps exactly the stored delay,
and a failed rebuild leaves the stored delay at min(2 * current, 30), so
consecutive failed attempts realise exactly this sequence. -/
theorem backoff_monotone_capped (base : Int) (n : Nat)
    (now : Int) (s : PipeState) (bo po : Bool)
    (h0 : 0 ≤ base) (h30 : base ≤ 30) :
    backoff_seq base n ≤ backoff_seq base (n + 1)
    ∧ backoff_seq base n ≤ 30
    ∧ backoff_seq base (n + 1) = min (backoff_seq base n * 2) 30
    ∧ (backoff_seq 3 0 = 3 ∧ backoff_seq 3 1 = 6 ∧ backoff_seq 3 2 = 12
       ∧ backoff_seq 3 3 = 24 ∧ backoff_seq 3 4 = 30 ∧ backoff_seq 3 5 = 30
       ∧ backoff_seq 3 6 = 30)
    ∧ (restart_refused s.config s.stats = false →
        Ev.wait s.reconnect_delay_s ∈ restart_trace s bo po
        ∧ (bo = false →
            ((restart_encoder now s bo po).2).reconnect_delay_s
              = min (s.reconnect_delay_s * 2) 30)) := by
  obtain ⟨hb0, hb30⟩ := backoff_bounds base h0 h30 n
  refine ⟨?_, hb30, rfl, by decide, ?_⟩
  · show backoff_seq base n ≤ min (backoff_seq base n * 2) 30
    exact le_min (by linarith) hb30
  · intro hr
    refine ⟨?_, ?_⟩
    · simp [restart_trace, hr]
    · intro hbo
      subst hbo
      simp [restart_encoder, restart_trace, hr, Ev.step,
            stop_encoder_delay, build_effect_delay]

/-- C3 witness at base 3, step 2: the third delay is at least the second
and the recurrence gives 12. -/
theorem backoff_monotone_capped_witness :
    backoff_seq 3 2 ≤ backoff_seq 3 3 :=
  (backoff_monotone_capped 3 2 0 s0 false false (by norm_num) (by norm_num)).1

/-- C4: the exhaustion guard of restart_encoder holds exactly when
max_pipeline_restarts is positive and the restart counter (as the C++
int cast reads it) has reached it; a refused request returns failure with
the state completely unchanged and an empty trace — no counter increment,
no backoff sleep, no tear-down, no rebuild; a non-refused request
immediately increments the restart counter and proceeds; and with
max_pipeline_restarts = 0 a request is never refused for exhaustion. -/
theorem restart_exhaustion (now : Int) (s : PipeState) (bo po : Bool) :
    (restart_refused s.config s.stats = true ↔
       (0 < s.config.resilience.max_pipeline_restarts ∧
        s.config.resilience.max_pipeline_restarts
          ≤ uint32_as_int s.stats.restart_count))
    ∧ (restart_refused s.config s.stats = true →
         restart_encoder now s bo po = (false, s)
         ∧ restart_trace s bo po = [])
    ∧ (restart_refused s.config s.stats = false →
         (restart_trace s bo po).head? = some Ev.inc_restart
         ∧ ((restart_encoder now s bo po).2).stats.restart_count
             = (s.stats.restart_count + 1) % 2 ^ 32)
    ∧ (s.config.resilience.max_pipeline_restarts = 0 →
         restart_refused s.config s.stats = false) := by
  refine ⟨?_, ?_, ?_, ?_⟩
  · simp [restart_refused]
  · intro h
    constructor
    · simp [restart_encoder, restart_trace, h]
    · simp [restart_trace, h]
  · intro h
    constructor
    · simp [restart_trace, h]
    · cases bo <;> cases po <;>
        simp [restart_encoder, restart_trace, h, Ev.step,
              stop_encoder_stats, build_effect_stats,
              Stats.on_pipeline_restart, Stats.reset]
  · intro h
    simp [restart_refused, h]

/-- C4 witness: under max_pipeline_restarts = 2 and a zero restart
counter, the first and the second restart requests are attempted and
succeed, while from the state reached after them (restart counter 2) the
third request is refused with the state unchanged. -/
theorem restart_exhaustion_witness :
    (restart_encoder 0 sm2 true true).1 = true
    ∧ (restart_encoder 0 sm2a true true).1 = true
    ∧ restart_encoder 0 sm2b true true = (false, sm2b)
    ∧ restart_trace sm2b true true = [] :=
  ⟨by decide, by decide,
   ((restart_exhaustion 0 sm2b true true).2.1 (by decide)).1,
   ((restart_exhaustion 0 sm2b true true).2.1 (by decide)).2⟩

/-- C5 counterexample: the claim orders a restart as tear-down first,
then the backoff wait, then the rebuild.  On the code the backoff sleep
comes first: in the trace of a successful restart from the running state
s0 the wait (3 s, the current delay) is at position 1 while the tear-down
only happens at position 3 — no tear-down occurs anywhere before the
wait. -/
theorem restart_order_cex :
    restart_trace s0 true true =
      [Ev.inc_restart, Ev.wait 3, Ev.backoff_double, Ev.teardown,
       Ev.build true, Ev.set_playing true, Ev.reset_stats, Ev.reset_backoff]
    ∧ (restart_trace s0 true true).get? 1 = some (Ev.wait 3)
    ∧ (restart_trace s0 true true).get? 3 = some Ev.teardown
    ∧ Ev.teardown ∉ (restart_trace s0 true true).take 3 := by
  decide

/-- C5 amended: every non-refused restart first sleeps the current
backoff delay (trace position 1), then tears the current graph down
(position 3), and only then rebuilds (position 4 when a build happens);
tear-down completes before the rebuild begins, and — starting from any
state whose live-instance instrumentation matches its graph handle — at
no intermediate point of the restart do two graph instances exist at
once. -/
theorem restart_order (now : Int) (s : PipeState) (bo po : Bool)
    (h : restart_refused s.config s.stats = false)
    (hl : s.live = if s.enc_pipeline = true then 1 else 0) :
    (restart_trace s bo po).get? 1 = some (Ev.wait s.reconnect_delay_s)
    ∧ (restart_trace s bo po).get? 3 = some Ev.teardown
    ∧ (bo = true → (restart_trace s bo po).get? 4 = some (Ev.build true))
    ∧ Ev.teardown ∉ (restart_trace s bo po).take 3
    ∧ ∀ st ∈ states_along now s (restart_trace s bo po), st.live ≤ 1 := by
  refine ⟨?_, ?_, ?_, ?_, ?_⟩
  · simp [restart_trace, h]
  · simp [restart_trace, h]
  · intro hbo; subst hbo; simp [restart_trace, h]
  · simp [restart_trace, h]
  · cases hep : s.enc_pipeline <;> cases bo <;> cases po <;>
      simp_all [restart_trace, h, states_along, Ev.step, stop_encoder,
                build_effect, hep, hl]

/-- C5 witness: the amended ordering at the concrete running state s0. -/
theorem restart_order_witness :
    (restart_trace s0 true true).get? 3 = some Ev.teardown :=
  (restart_order 0 s0 true true (by decide) (by decide)).2.1

/-- C6 counterexample: the claim times the resets at the first frame
observed after a restart.  On the code, the successful restart from s0
performs reset_stats at trace position 6, immediately after the PLAYING
request is accepted, and no frame event occurs anywhere in the restart:
the restart completes with frame count already zeroed and the backoff
already back at base 3 before any frame from the rebuilt graph. -/
theorem reset_before_frame_cex :
    Ev.reset_stats ∈ restart_trace s0 true true
    ∧ Ev.frame ∉ restart_trace s0 true true
    ∧ (restart_trace s0 true true).get? 5 = some (Ev.set_playing true)
    ∧ (restart_trace s0 true true).get? 6 = some Ev.reset_stats
    ∧ ((restart_encoder 0 s0 true true).2).stats.frame_count = 0
    ∧ ((restart_encoder 0 s0 true true).2).reconnect_delay_s = 3 := by
  decide

/-- C6 amended: in a non-refused restart the stats reset and the backoff
reset happen exactly when both the rebuild and the PLAYING request
succeed — never because the build alone succeeded — and they happen
right after the accepted PLAYING request with no frame in between: the
final state has the backoff back at the configured base and the frame
count zeroed before any frame of the rebuilt graph. -/
theorem reset_after_play_success (now : Int) (s : PipeState) (bo po : Bool)
    (h : restart_refused s.config s.stats = false) :
    ((Ev.reset_stats ∈ restart_trace s bo po) ↔ (bo = true ∧ po = true))
    ∧ ((Ev.reset_backoff ∈ restart_trace s bo po) ↔ (bo = true ∧ po = true))
    ∧ (bo = true → po = false → Ev.reset_stats ∉ restart_trace s bo po)
    ∧ (bo = true → po = true →
        (restart_trace s bo po).get? 4 = some (Ev.build true)
        ∧ (restart_trace s bo po).get? 5 = some (Ev.set_playing true)
        ∧ (restart_trace s bo po).get? 6 = some Ev.reset_stats
        ∧ ((restart_encoder now s bo po).2).reconnect_delay_s
            = s.config.rtsp.reconnect_delay_s
        ∧ ((restart_encoder now s bo po).2).stats.frame_count = 0)
    ∧ Ev.frame ∉ restart_trace s bo po := by
  cases bo <;> cases po <;>
    simp [restart_trace, h, restart_encoder, Ev.step,
          stop_encoder_stats, stop_encoder_delay, stop_encoder_config,
          build_effect_stats, build_effect_delay, build_effect_config,
          Stats.reset, Stats.on_pipeline_restart]

/-- C6 witness: the amended property applied at the concrete running
state s0 with both steps succeeding. -/
theorem reset_after_play_success_witness :
    Ev.reset_stats ∈ restart_trace s0 true true :=
  ((reset_after_play_success 0 s0 true true (by decide)).1).mpr ⟨rfl, rfl⟩

/-- C8: under a configuration that passes validate_config (which bounds
the bitrates so that the guint products cannot wrap), building the graph
configures the encoder element with exactly bitrate =
target_bitrate_kbps * 1000 and peak-bitrate = max_bitrate_kbps * 1000
bits per second; and Pipeline::set_bitrate rewrites exactly those two
element properties at runtime — the graph handle, the live-instance
count, the running flag and the sink are untouched (no rebuild), every
other element property keeps its value, and of the configuration record
only the two bitrate fields change. -/
theorem bitrate_config_spec (s : PipeState) (p : EncProps) (t m : Nat)
    (hv : validate_config s.config = true)
    (hp : s.encoder.encoder = some p)
    (ht : t ≤ 50000) (hm : m ≤ 50000) :
    ((build_effect s).encoder.encoder).map EncProps.bitrate
        = some (s.config.encoder.target_bitrate_kbps * 1000)
    ∧ ((build_effect s).encoder.encoder).map EncProps.peak_bitrate
        = some (s.config.encoder.max_bitrate_kbps * 1000)
    ∧ (s.set_bitrate t m).encoder.encoder
        = some { p with bitrate := t * 1000, peak_bitrate := m * 1000 }
    ∧ (s.set_bitrate t m).enc_pipeline = s.enc_pipeline
    ∧ (s.set_bitrate t m).live = s.live
    ∧ (s.set_bitrate t m).running = s.running
    ∧ (s.set_bitrate t m).appsink = s.appsink
    ∧ (s.set_bitrate t m).rtsp_server = s.rtsp_server
    ∧ (s.set_bitrate t m).config.rtsp = s.config.rtsp
    ∧ (s.set_bitrate t m).config.output = s.config.output
    ∧ (s.set_bitrate t m).config.stats = s.config.stats
    ∧ (s.set_bitrate t m).config.resilience = s.config.resilience
    ∧ (s.set_bitrate t m).config.encoder
        = { s.config.encoder with target_bitrate_kbps := t,
                                  max_bitrate_kbps := m }
    ∧ (s.set_bitrate t m).encoder.target_bitrate_kbps = t
    ∧ (s.set_bitrate t m).encoder.max_bitrate_kbps = m := by
  have h32 : (2 : Nat) ^ 32 = 4294967296 := by norm_num
  simp only [validate_config, Bool.and_eq_true, Bool.not_eq_true',
             decide_eq_false_iff_not, Bool.or_eq_true, decide_eq_true_eq,
             not_lt, not_le] at hv
  obtain ⟨⟨⟨⟨⟨⟨⟨hurl, htr⟩, hwh⟩, hfr⟩, hbr⟩, htm⟩, hidr⟩, hport⟩ := hv
  have hmx : s.config.encoder.max_bitrate_kbps ≤ 50000 := by
    rcases hbr with ⟨h1, h2⟩
    omega
  have htg : s.config.encoder.target_bitrate_kbps ≤ 50000 := le_trans htm hmx
  have hmod_t : s.config.encoder.target_bitrate_kbps * 1000 % 2 ^ 32
      = s.config.encoder.target_bitrate_kbps * 1000 := by
    apply Nat.mod_eq_of_lt; omega
  have hmod_m : s.config.encoder.max_bitrate_kbps * 1000 % 2 ^ 32
      = s.config.encoder.max_bitrate_kbps * 1000 := by
    apply Nat.mod_eq_of_lt; omega
  have hmod_t2 : t * 1000 % 2 ^ 32 = t * 1000 := by
    apply Nat.mod_eq_of_lt; omega
  have hmod_m2 : m * 1000 % 2 ^ 32 = m * 1000 := by
    apply Nat.mod_eq_of_lt; omega
  refine ⟨?_, ?_, ?_, rfl, rfl, rfl, rfl, rfl, rfl, rfl, rfl, rfl, rfl, ?_, ?_⟩
  · simp [build_effect, Encoder.configure, hmod_t]
    omega
  · simp [build_effect, Encoder.configure, hmod_m]
    omega
  · simp [PipeState.set_bitrate, Encoder.set_bitrate, hp, hmod_t2, hmod_m2]
    omega
  · simp [PipeState.set_bitrate, Encoder.set_bitrate, hp]
  · simp [PipeState.set_bitrate, Encoder.set_bitrate, hp]

/-- C8 witness: the default running pipeline s0 (a validated
configuration, encoder element present) with a runtime update to
1500 / 2000 kbps. -/
theorem bitrate_config_spec_witness :
    (s0.set_bitrate 1500 2000).encoder.encoder
      = some { props0 with bitrate := 1500000, peak_bitrate := 2000000 } :=
  (bitrate_config_spec s0 props0 1500 2000 (by decide) rfl
    (by norm_num) (by norm_num)).2.2.1
